import Mathlib

/-!
Verification development for the BazuuSave savings backend
(repository `defi-app-backend`).

The definitions below are a shallow embedding of the code that the
balance / transaction reconciliation claims are about:

* the `Transaction` mongoose schema (`src/models/transaction.js`),
  its `type` / `status` enums and its unique sparse indexes;
* the blockchain-service event sync (`syncTransactionsToDatabase`,
  blockchain service lines 281-303);
* the two M-Pesa webhook handlers
  (`src/controllers/savingscontroller.js` - Redis-correlated STK
  callback - and `src/controllers/savingsController.js` -
  transaction-record-correlated callback), modelled in the namespaces
  `Savingscontroller` and `SavingsController` after the two files;
* the crypto deposit / withdraw request handlers of both files;
* the `BazuuSave.sol` contract balance rules;
* the `Goal` schema pre-save hook and the goal contribution update
  (`src/controllers/goalcontroller.js` lines 288-306);
* `UserSchema.methods.getTotalSavings` (`src/models/user.js`) and the
  transaction-history pagination (`getTransactions`,
  `src/controllers/savingscontroller.js` lines 292-333).

Stateful code is embedded as explicit state passing: a handler takes
the relevant store(s) and returns the new store(s) together with the
HTTP reply it sends.  Fallible operations return `Except`.
-/

/-- Result of an HTTP handler: the status code plus the fields of the
JSON body that the claims talk about. -/
structure HttpReply where
  status : Nat
  success : Option Bool := none
  error : Option String := none
  resultCode : Option Int := none
  resultDesc : Option String := none
deriving Repr, DecidableEq

/-- The fixed M-Pesa acknowledgement payload
`res.status(200).json({ ResultCode: 0, ResultDesc: 'Accepted' })`. -/
def mpesaAck : HttpReply :=
  { status := 200, resultCode := some 0, resultDesc := some "Accepted" }

/-- A `Transaction` document, with the fields of the schema in
`src/models/transaction.js` that the claims touch, plus the two
fields (`mpesaRequestId`, `destinationAddress`) that
`savingsController.js` writes on its documents.  `type` and `status`
are kept as strings because the code passes arbitrary strings to
`Transaction.create` and the schema validates them against enums. -/
structure TxnDoc where
  userId : Option String := none
  userAddress : Option String := none
  walletAddress : Option String := none
  type : Option String := none
  amount : Option Int := none
  status : String := "completed"
  txHash : Option String := none
  mpesaReference : Option String := none
  mpesaRequestId : Option String := none
  destinationAddress : Option String := none
  phoneNumber : Option String := none
  goalId : Option String := none
  blockNumber : Option Nat := none
  errMsg : Option String := none
  timestamp : Int := 0
deriving Repr, DecidableEq

/-- The `type` enum of the transaction schema
(`src/models/transaction.js` lines 20-31). -/
def transactionTypeEnum : List String :=
  ["deposit", "withdrawal", "mpesa_deposit", "mpesa_withdrawal",
   "goal_contribution", "swap"]

/-- The `status` enum of the transaction schema
(`src/models/transaction.js` lines 36-40). -/
def transactionStatusEnum : List String :=
  ["pending", "processing", "completed", "failed"]

/-- Mongoose document validation for the transaction schema: `type` is
required and must be in its enum, `status` must be in its enum, and
`amount` is required. -/
def validTransaction (d : TxnDoc) : Bool :=
  (match d.type with
   | some t => transactionTypeEnum.contains t
   | none => false)
  && transactionStatusEnum.contains d.status
  && d.amount.isSome

/-- The unique sparse indexes on `txHash` and `mpesaReference`
(`src/models/transaction.js` lines 41-50): an insert whose `txHash`
or `mpesaReference` is present and already stored is rejected. -/
def uniqueIndexOk (store : List TxnDoc) (d : TxnDoc) : Bool :=
  (match d.txHash with
   | some h => store.all (fun t => t.txHash ≠ some h)
   | none => true)
  && (match d.mpesaReference with
      | some r => store.all (fun t => t.mpesaReference ≠ some r)
      | none => true)

/-- `Transaction.create`: validates the document against the schema,
enforces the unique indexes, and appends the document. -/
def transactionCreate (store : List TxnDoc) (d : TxnDoc) :
    Except String (List TxnDoc) :=
  if ¬ validTransaction d then .error "ValidationError"
  else if ¬ uniqueIndexOk store d then .error "DuplicateKeyError"
  else .ok (store ++ [d])

/-- An on-chain event as consumed by the sync loop: `transactionHash`,
the event name (`Deposited` / `Withdrawn`), the decoded amount, the
block data, and the receipt status of the transaction. -/
structure LedgerEvent where
  transactionHash : String
  eventName : String
  amount : Int
  blockNumber : Nat
  blockTimestamp : Int
  receiptStatus : Nat
deriving Repr, DecidableEq

/-- `syncTransactionsToDatabase` (blockchain service, lines 281-303):
for each event, skip it when a `Transaction` with its hash already
exists, otherwise `Transaction.create` a record with
`type: event.event`, the decoded amount, the block number and
timestamp, and `status: receipt.status === 1 ? 'success' : 'failed'`.
The surrounding `try`/`catch` rethrows, so a failing insert aborts
the rest of the sync. -/
def syncTransactionsToDatabase (store : List TxnDoc)
    (walletAddress : String) : List LedgerEvent →
    Except String (List TxnDoc)
  | [] => .ok store
  | e :: rest =>
    if store.any (fun t => t.txHash = some e.transactionHash) then
      syncTransactionsToDatabase store walletAddress rest
    else
      match transactionCreate store
        { txHash := some e.transactionHash,
          walletAddress := some walletAddress,
          type := some e.eventName,
          amount := some e.amount,
          blockNumber := some e.blockNumber,
          timestamp := e.blockTimestamp,
          status := if e.receiptStatus = 1 then "success" else "failed" } with
      | .ok store' => syncTransactionsToDatabase store' walletAddress rest
      | .error msg => .error msg


/-- On-chain state of `BazuuSave.sol`: the `userBalances` mapping (a
total function with default 0, as a Solidity mapping is) plus a nonce
used to produce fresh transaction hashes.  Accounts are identified by
the signing key the backend submits, so the account key below is the
`privateKey` string the controllers pass to the blockchain service. -/
structure ChainState where
  userBalances : String → Int
  nonce : Nat := 0

/-- `BazuuSave.deposit` (contract lines 42-53): requires a positive
amount, then credits `userBalances[msg.sender]`.  The USDC
`transferFrom` is treated as succeeding. -/
def contractDeposit (c : ChainState) (sender : String) (amount : Int) :
    Except String (ChainState × String) :=
  if amount ≤ 0 then .error "Amount must be greater than zero"
  else
    .ok ({ userBalances := fun a =>
             if a = sender then c.userBalances a + amount else c.userBalances a,
           nonce := c.nonce + 1 },
         "0xtx" ++ toString c.nonce)

/-- `BazuuSave.withdraw` (contract lines 56-68): requires a positive
amount and `userBalances[msg.sender] >= amount`, then debits the
balance. -/
def contractWithdraw (c : ChainState) (sender : String) (amount : Int) :
    Except String (ChainState × String) :=
  if amount ≤ 0 then .error "Amount must be greater than zero"
  else if c.userBalances sender < amount then .error "Insufficient balance"
  else
    .ok ({ userBalances := fun a =>
             if a = sender then c.userBalances a - amount else c.userBalances a,
           nonce := c.nonce + 1 },
         "0xtx" ++ toString c.nonce)

/-- A call the controllers make into the blockchain service. -/
inductive BlockchainCall where
  | deposit (key : String) (amount : Int)
  | withdraw (key : String) (amount : Int)
deriving Repr, DecidableEq

/-- Redis GET on an association list of keys. -/
def redisGet {α : Type} : List (String × α) → String → Option α
  | [], _ => none
  | p :: rest, k => if p.1 = k then some p.2 else redisGet rest k

/-- Redis DEL on an association list of keys. -/
def redisDel {α : Type} : List (String × α) → String → List (String × α)
  | [], _ => []
  | p :: rest, k => if p.1 = k then redisDel rest k else p :: redisDel rest k

namespace Savingscontroller

/-! Model of `src/controllers/savingscontroller.js`: the STK-push
M-Pesa callback correlated through Redis, and the crypto deposit /
withdraw request handlers. -/

/-- The pending-deposit details `depositMpesa` stores in Redis under
`mpesa:<CheckoutRequestID>` (savingscontroller.js lines 85-97). -/
structure RedisEntry where
  userId : String
  amount : Int
  walletAddress : String
deriving Repr, DecidableEq

/-- One `CallbackMetadata.Item` entry of the STK callback. -/
structure CallbackItem where
  name : String
  value : Int
deriving Repr, DecidableEq

/-- The fields of `Body.stkCallback` the handler destructures.  An
absent `CallbackMetadata` is the empty item list. -/
structure StkCallback where
  checkoutRequestID : String
  resultCode : Int
  resultDesc : String := ""
  metadata : List CallbackItem := []
deriving Repr, DecidableEq

/-- Store state threaded through the savingscontroller handlers:
the Redis pending entries, the Transaction collection, the on-chain
state (which this file's callback never touches), the log of SMS
sends, and the current clock used for `Date.now()`. -/
structure MState where
  redis : List (String × RedisEntry)
  transactions : List TxnDoc
  chain : ChainState
  sms : List (String × String)
  now : Int

/-- The metadata loop of `mpesaCallback` (lines 148-153): walk the
items, taking the last `Amount` as the settled amount (initialised
from the requested amount) and the last `PhoneNumber` as the phone
(initialised from the empty string). -/
def extractMetadata : Int → String → List CallbackItem → Int × String
  | a, p, [] => (a, p)
  | a, p, i :: rest =>
    extractMetadata
      (if i.name = "Amount" then i.value else a)
      (if i.name = "PhoneNumber" then toString i.value else p)
      rest

/-- `mpesaCallback` (savingscontroller.js lines 114-201).  Looks up
the pending entry in Redis; if absent, acknowledges and stops.  On
`ResultCode === 0` it creates a completed `mpesa_deposit` Transaction
with the settled metadata amount and sends an SMS; otherwise it
creates a failed Transaction carrying `ResultDesc`.  It then deletes
the Redis key and always replies with the fixed acknowledgement;
a thrown error (a rejected insert) is caught and also acknowledged.
No blockchain call is made: crediting the savings balance is left as
a comment in the source. -/
def mpesaCallback (st : MState) (cb : StkCallback) : MState × HttpReply :=
  let key := "mpesa:" ++ cb.checkoutRequestID
  match redisGet st.redis key with
  | none => (st, mpesaAck)
  | some entry =>
    if cb.resultCode = 0 then
      let meta := extractMetadata entry.amount "" cb.metadata
      match transactionCreate st.transactions
        { userId := some entry.userId,
          type := some "mpesa_deposit",
          status := "completed",
          amount := some meta.1,
          mpesaReference := some cb.checkoutRequestID,
          phoneNumber := some meta.2,
          walletAddress := some entry.walletAddress,
          timestamp := st.now } with
      | .error _ => (st, mpesaAck)
      | .ok txns =>
        ({ st with
            transactions := txns,
            sms := st.sms ++
              [(meta.2, "Your M-Pesa payment of KES " ++ toString meta.1 ++
                " has been received. Your BazuuSave account will be credited shortly.")],
            redis := redisDel st.redis key }, mpesaAck)
    else
      match transactionCreate st.transactions
        { userId := some entry.userId,
          type := some "mpesa_deposit",
          status := "failed",
          amount := some entry.amount,
          mpesaReference := some cb.checkoutRequestID,
          errMsg := some cb.resultDesc,
          walletAddress := some entry.walletAddress,
          timestamp := st.now } with
      | .error _ => (st, mpesaAck)
      | .ok txns =>
        ({ st with transactions := txns, redis := redisDel st.redis key },
         mpesaAck)

/-- Request body of `depositCrypto` / `withdraw`: `amount` and
`privateKey`, each possibly absent. -/
structure CryptoReq where
  amount : Option Int := none
  privateKey : Option String := none
deriving Repr, DecidableEq

/-- Result of a crypto deposit / withdraw request: the Transaction
store and chain after the request, the blockchain calls made, and the
HTTP reply. -/
structure CryptoResult where
  transactions : List TxnDoc
  chain : ChainState
  calls : List BlockchainCall
  reply : HttpReply

/-- The `res.status(400)` body `{ success: false, error: 'Invalid
input parameters' }`. -/
def invalidParams : HttpReply :=
  { status := 400, success := some false,
    error := some "Invalid input parameters" }

/-- `depositCrypto` (savingscontroller.js lines 25-52).  The guard
`!amount || amount <= 0 || !privateKey` rejects a missing, zero or
negative amount (`r.amount.getD 0 <= 0` covers all three) and a
missing or empty private key, replying 400 before any blockchain
call and creating no Transaction.  Otherwise it performs the deposit
and replies 200, or 500 when the service throws. -/
def depositCrypto (store : List TxnDoc) (chain : ChainState)
    (r : CryptoReq) : CryptoResult :=
  if r.amount.getD 0 ≤ 0 ∨ r.privateKey = none ∨ r.privateKey = some "" then
    ⟨store, chain, [], invalidParams⟩
  else
    let a := r.amount.getD 0
    let k := r.privateKey.getD ""
    match contractDeposit chain k a with
    | .ok (chain', _) =>
      ⟨store, chain', [.deposit k a], { status := 200, success := some true }⟩
    | .error _ =>
      ⟨store, chain, [.deposit k a],
       { status := 500, success := some false,
         error := some "Failed to process deposit" }⟩

/-- `withdraw` (savingscontroller.js lines 203-230): identical input
guard, then the on-chain withdrawal. -/
def withdraw (store : List TxnDoc) (chain : ChainState)
    (r : CryptoReq) : CryptoResult :=
  if r.amount.getD 0 ≤ 0 ∨ r.privateKey = none ∨ r.privateKey = some "" then
    ⟨store, chain, [], invalidParams⟩
  else
    let a := r.amount.getD 0
    let k := r.privateKey.getD ""
    match contractWithdraw chain k a with
    | .ok (chain', _) =>
      ⟨store, chain', [.withdraw k a], { status := 200, success := some true }⟩
    | .error _ =>
      ⟨store, chain, [.withdraw k a],
       { status := 500, success := some false,
         error := some "Failed to process withdrawal" }⟩

/-- Pagination block of the `getTransactions` response. -/
structure TxnPage where
  transactions : List TxnDoc
  total : Nat
  page : Nat
  limit : Nat
  pages : Nat
deriving Repr, DecidableEq

/-- Sort relation used for the transaction history: descending
timestamp (`.sort({ timestamp: -1 })`). -/
def tsGE (a b : TxnDoc) : Prop := b.timestamp ≤ a.timestamp

instance : DecidableRel tsGE :=
  fun a b => inferInstanceAs (Decidable (b.timestamp ≤ a.timestamp))

instance : IsTotal TxnDoc tsGE :=
  ⟨fun a b => le_total b.timestamp a.timestamp⟩

instance : IsTrans TxnDoc tsGE :=
  ⟨fun _ _ _ hab hbc => le_trans hbc hab⟩

/-- The `$or` address filter of `getTransactions` (lines 299-304):
the document's `userAddress` or `walletAddress` equals the lowercased
request address. -/
def matchesAddress (low : String) (t : TxnDoc) : Bool :=
  t.userAddress == some low || t.walletAddress == some low

/-- `getTransactions` (savingscontroller.js lines 292-333): filter by
address, sort by timestamp descending, skip `(page-1)*limit`, take
`limit`, and report `total` matching documents and
`pages = Math.ceil(total/limit)`.  The second component is the
Transaction store after the request: the handler only reads. -/
def getTransactions (store : List TxnDoc) (address : String)
    (page limit : Nat) : TxnPage × List TxnDoc :=
  let low := address.toLower
  let matching := store.filter (matchesAddress low)
  let sorted := matching.insertionSort tsGE
  let skip := (page - 1) * limit
  let total := matching.length
  (⟨(sorted.drop skip).take limit, total, page, limit,
    (total + limit - 1) / limit⟩, store)

end Savingscontroller

namespace SavingsController

/-! Model of `src/controllers/savingsController.js`: the callback
correlated through a pending Transaction record, and the crypto
withdrawal handler. -/

/-- The user fields this file dereferences: the id, the stored
private key the callback signs with, and the wallet address used for
cache keys and Transaction records. -/
structure UserRec where
  id : String
  privateKey : String
  walletAddress : String
deriving Repr, DecidableEq

/-- The callback body `{ requestId, status, amount }`
(savingsController.js line 129). -/
structure SimpleCallback where
  requestId : String
  status : String
  amount : Int
deriving Repr, DecidableEq

/-- Store state threaded through the savingsController handlers. -/
structure CState where
  transactions : List TxnDoc
  users : List UserRec
  chain : ChainState
  cache : List (String × String)

/-- `Transaction.findOne({ mpesaRequestId: requestId })`: first
matching document. -/
def findPending (txns : List TxnDoc) (requestId : String) : Option TxnDoc :=
  txns.find? (fun t => t.mpesaRequestId == some requestId)

/-- Setting `transaction.status = s` followed by `transaction.save()`:
updates the first document matching the request id in place. -/
def saveStatusFirst : List TxnDoc → String → String → List TxnDoc
  | [], _, _ => []
  | t :: rest, rid, s =>
    if t.mpesaRequestId = some rid then { t with status := s } :: rest
    else t :: saveStatusFirst rest rid s

/-- `User.findById` over the user store. -/
def findUser (users : List UserRec) (uid : Option String) : Option UserRec :=
  users.find? (fun u => some u.id == uid)

/-- `mpesaCallback` (savingsController.js lines 127-170).  Finds the
pending Transaction by `mpesaRequestId`; replies 404 when absent.  On
`status === 'success'` it marks the record completed, looks the user
up, and deposits the callback amount on chain with the user's stored
private key (a missing user or a failed deposit throws into the catch
block, which replies 500 after the record was already saved).  On any
other status it marks the record failed.  It never creates a new
Transaction document. -/
def mpesaCallback (st : CState) (cb : SimpleCallback) : CState × HttpReply :=
  match findPending st.transactions cb.requestId with
  | none =>
    (st, { status := 404, success := some false,
           error := some "Transaction not found" })
  | some t =>
    if cb.status = "success" then
      let txns := saveStatusFirst st.transactions cb.requestId "completed"
      match findUser st.users t.userId with
      | none =>
        ({ st with transactions := txns },
         { status := 500, success := some false,
           error := some "Failed to process M-Pesa callback" })
      | some u =>
        match contractDeposit st.chain u.privateKey cb.amount with
        | .error _ =>
          ({ st with transactions := txns },
           { status := 500, success := some false,
             error := some "Failed to process M-Pesa callback" })
        | .ok (chain', _) =>
          ({ st with
              transactions := txns,
              chain := chain',
              cache := redisDel st.cache ("balance:" ++ u.walletAddress) },
           { status := 200, success := some true })
    else
      ({ st with
          transactions := saveStatusFirst st.transactions cb.requestId "failed" },
       { status := 200, success := some true })

/-- Request body of the crypto withdrawal
(savingsController.js line 179). -/
structure WithdrawReq where
  amount : Int
  address : String
  privateKey : String
deriving Repr, DecidableEq

/-- `withdraw` (savingsController.js lines 177-211).  Withdraws on
chain with the submitted key; when the contract rejects (for example
an over-balance amount) the thrown error reaches the catch block and
the handler replies 500 having written nothing.  On success it
creates a completed `withdrawal` Transaction with the tx hash and
invalidates the balance cache (a rejected insert also falls to the
catch block, after the chain was already debited). -/
def withdraw (st : CState) (u : UserRec) (r : WithdrawReq) :
    CState × HttpReply :=
  match contractWithdraw st.chain r.privateKey r.amount with
  | .error _ =>
    (st, { status := 500, success := some false,
           error := some "Failed to withdraw crypto" })
  | .ok (chain', txHash) =>
    match transactionCreate st.transactions
      { userId := some u.id,
        type := some "withdrawal",
        amount := some r.amount,
        status := "completed",
        txHash := some txHash,
        walletAddress := some u.walletAddress,
        destinationAddress := some r.address } with
    | .error _ =>
      ({ st with chain := chain' },
       { status := 500, success := some false,
         error := some "Failed to withdraw crypto" })
    | .ok txns =>
      ({ st with
          chain := chain',
          transactions := txns,
          cache := redisDel st.cache ("balance:" ++ u.walletAddress) },
       { status := 200, success := some true })

end SavingsController

/-- A stored `Goal` document: the fields the completion claims touch
(`currentAmount`, `targetAmount`, `status`, `completedAt`); the other
schema fields (milestones, reminders, ...) do not interact with
them. -/
structure GoalRec where
  currentAmount : Int := 0
  targetAmount : Int
  status : String := "active"
  completedAt : Option Int := none
deriving Repr, DecidableEq

/-- The database update of `contributeToGoal` (goalcontroller.js
lines 288-306): `newAmount = currentAmount + amount`,
`newStatus = newAmount >= targetAmount ? 'completed' : 'active'`,
written with `findByIdAndUpdate` - which does not run the schema's
pre-save hook, so `completedAt` is left as it was.  The preceding
on-chain contribution and the SMS notification do not touch the
stored goal record. -/
def contributeToGoal (g : GoalRec) (amount : Int) : GoalRec :=
  let newAmount := g.currentAmount + amount
  { g with
      currentAmount := newAmount,
      status := if newAmount ≥ g.targetAmount then "completed" else "active" }

/-- A sequence of contributions applied through `contributeToGoal`. -/
def applyContributions (g : GoalRec) (amounts : List Int) : GoalRec :=
  amounts.foldl contributeToGoal g

/-- The goal schema's pre-save hook (Goal model lines 329-347 of the
concatenated `src/models/transaction.js`): when `currentAmount >=
targetAmount` and the status is `active`, set the status to
`completed` and stamp `completedAt`.  The milestone updates touch
only the milestone subdocuments. -/
def goalPreSaveHook (now : Int) (g : GoalRec) : GoalRec :=
  if g.currentAmount ≥ g.targetAmount ∧ g.status = "active" then
    { g with status := "completed", completedAt := some now }
  else g

/-- `UserSchema.methods.getTotalSavings` (src/models/user.js lines
213-253): the sum of amounts of the user's completed `deposit`
Transactions minus the sum of amounts of the completed `withdrawal`
ones. -/
def getTotalSavings (store : List TxnDoc) (userId : String) : Int :=
  let deposits :=
    ((store.filter (fun t =>
        t.userId == some userId && t.type == some "deposit" &&
        t.status == "completed")).map (fun t => t.amount.getD 0)).sum
  let withdrawals :=
    ((store.filter (fun t =>
        t.userId == some userId && t.type == some "withdrawal" &&
        t.status == "completed")).map (fun t => t.amount.getD 0)).sum
  deposits - withdrawals

/-- Specification-side reading of the same aggregate: the signed
contribution of a single Transaction to the user's total savings -
its amount for a completed deposit, the negated amount for a
completed withdrawal, and zero for every other type or status. -/
def txnContribution (userId : String) (t : TxnDoc) : Int :=
  if t.userId = some userId ∧ t.type = some "deposit" ∧
      t.status = "completed" then t.amount.getD 0
  else if t.userId = some userId ∧ t.type = some "withdrawal" ∧
      t.status = "completed" then -(t.amount.getD 0)
  else 0

/-! Concrete fixtures used by the counterexample and witness
theorems. -/

/-- A fresh chain: every balance zero. -/
def chain0 : ChainState := ⟨fun _ => 0, 0⟩

/-- A user whose stored signing key is `k1` and wallet is `0xw`. -/
def cbUser : SavingsController.UserRec := ⟨"u1", "k1", "0xw"⟩

/-- The pending Transaction `depositMpesa` records before the
provider confirms (savingsController.js lines 100-107). -/
def pendingTxn : TxnDoc :=
  { userId := some "u1", type := some "deposit", amount := some 100,
    status := "pending", mpesaRequestId := some "r1",
    phoneNumber := some "+254712345678" }

/-- Store state of savingsController.js just before the webhook
arrives: one pending deposit of 100 for user `u1`. -/
def cbState0 : SavingsController.CState := ⟨[pendingTxn], [cbUser], chain0, []⟩

/-- A successful provider callback for the pending deposit. -/
def cbSuccess : SavingsController.SimpleCallback := ⟨"r1", "success", 100⟩

/-- Store state of savingsController.js with no pending record. -/
def emptyCState : SavingsController.CState := ⟨[], [], chain0, []⟩

/-- The Redis pending entry for a 100-unit STK deposit. -/
def stkEntry : Savingscontroller.RedisEntry := ⟨"u1", 100, "0xw"⟩

/-- Store state of savingscontroller.js just before the STK callback
arrives: the Redis entry is present and no Transaction exists. -/
def stkState0 : Savingscontroller.MState :=
  ⟨[("mpesa:cr1", stkEntry)], [], chain0, [], 1000⟩

/-- A successful STK callback: `ResultCode` 0 with settled amount and
phone in the metadata items. -/
def stkSuccess : Savingscontroller.StkCallback :=
  { checkoutRequestID := "cr1", resultCode := 0,
    resultDesc := "The service request is processed successfully.",
    metadata := [⟨"Amount", 100⟩, ⟨"PhoneNumber", 254712345678⟩] }

/-- Store state of savingsController.js where user `u1` has an
on-chain balance of 50 under key `k1`. -/
def wdState0 : SavingsController.CState :=
  ⟨[], [cbUser], ⟨fun a => if a = "k1" then 50 else 0, 0⟩, []⟩

/-- A withdrawal request for 100 - more than the balance of 50. -/
def wdReq : SavingsController.WithdrawReq := ⟨100, "0xdest", "k1"⟩

/-- An active goal at 450 of a 500 target, not yet completed. -/
def goal450 : GoalRec := ⟨450, 500, "active", none⟩

/-- An active goal that has exactly reached its 500 target. -/
def goal500 : GoalRec := ⟨500, 500, "active", none⟩

/-! Helper lemmas. -/

theorem redisGet_redisDel {α : Type} (m : List (String × α)) (k : String) :
    redisGet (redisDel m k) k = none := by
  induction m with
  | nil => rfl
  | cons p rest ih =>
    by_cases h : p.1 = k
    · simpa [redisDel, h] using ih
    · simp [redisDel, redisGet, h, ih]

theorem saveStatusFirst_length (l : List TxnDoc) (rid s : String) :
    (SavingsController.saveStatusFirst l rid s).length = l.length := by
  induction l with
  | nil => rfl
  | cons t rest ih =>
    by_cases h : t.mpesaRequestId = some rid <;>
      simp [SavingsController.saveStatusFirst, h, ih]

/-- Claim C1 (code bug evidence): the event-sync path can never
record a Transaction.  The document it builds for an on-chain
`Deposited` event carries `type: 'Deposited'` and
`status: 'success'`, neither of which is in the schema's enums, so
`Transaction.create` rejects it and the sync rethrows; in
particular a sequence of duplicate events with the same hash stores
nothing instead of exactly one record. -/
theorem c1_event_sync_insert_rejected :
    validTransaction
      { txHash := some "0xh1", walletAddress := some "0xabc",
        type := some "Deposited", amount := some 100,
        blockNumber := some 7, timestamp := 1700000000,
        status := "success" } = false ∧
    syncTransactionsToDatabase [] "0xabc"
      [{ transactionHash := "0xh1", eventName := "Deposited", amount := 100,
         blockNumber := 7, blockTimestamp := 1700000000, receiptStatus := 1 },
       { transactionHash := "0xh1", eventName := "Deposited", amount := 100,
         blockNumber := 7, blockTimestamp := 1700000000, receiptStatus := 1 }]
      = .error "ValidationError" :=
  ⟨by decide, by rfl⟩

/-- Claim C5 (counterexample): contributing 100 to an active goal
with target 500 and current amount 450 stores `currentAmount = 550`,
strictly above the target - the update does not clamp or otherwise
normalise the stored amount. -/
theorem c5_counterexample :
    (contributeToGoal goal450 100).currentAmount = 550 ∧
    goal450.targetAmount = 500 ∧
    goal450.targetAmount < (contributeToGoal goal450 100).currentAmount := by
  refine ⟨by decide, by decide, by decide⟩

/-- Claim C5 (amended): under `contributeToGoal` the stored
`currentAmount` is exactly the old amount plus the contribution, so
it is monotonically non-decreasing for non-negative contributions
(including along any sequence of them), but it is not normalised
against `targetAmount` and may exceed it. -/
theorem c5_current_amount_monotone_unclamped :
    (∀ (g : GoalRec) (a : Int), 0 ≤ a →
      (contributeToGoal g a).currentAmount = g.currentAmount + a ∧
      g.currentAmount ≤ (contributeToGoal g a).currentAmount) ∧
    (∀ (g : GoalRec) (cs : List Int), (∀ c ∈ cs, 0 ≤ c) →
      g.currentAmount ≤ (applyContributions g cs).currentAmount) := by
  constructor
  · intro g a ha
    refine ⟨rfl, ?_⟩
    simp only [contributeToGoal]
    omega
  · intro g cs
    induction cs generalizing g with
    | nil => intro _; simp [applyContributions]
    | cons c rest ih =>
      intro h
      have hc : (0 : Int) ≤ c := h c (by simp)
      have hrest := ih (contributeToGoal g c) (fun x hx => h x (by simp [hx]))
      have hstep : g.currentAmount ≤ (contributeToGoal g c).currentAmount := by
        simp only [contributeToGoal]; omega
      calc g.currentAmount ≤ (contributeToGoal g c).currentAmount := hstep
        _ ≤ (applyContributions (contributeToGoal g c) rest).currentAmount := hrest
        _ = (applyContributions g (c :: rest)).currentAmount := by
              simp [applyContributions]

/-- Witness for C5 at the concrete goal 450-of-500 and a
contribution of 100. -/
theorem c5_witness :
    (contributeToGoal goal450 100).currentAmount = goal450.currentAmount + 100 ∧
    goal450.currentAmount ≤ (contributeToGoal goal450 100).currentAmount :=
  c5_current_amount_monotone_unclamped.1 goal450 100 (by decide)

/-- Claim C6 (counterexample): the contribution that completes the
450-of-500 goal flips its status to `completed` but leaves
`completedAt` unset - `findByIdAndUpdate` bypasses the pre-save hook
that would have stamped it. -/
theorem c6_counterexample :
    goal450.status = "active" ∧
    (contributeToGoal goal450 100).status = "completed" ∧
    (contributeToGoal goal450 100).completedAt = none := by
  refine ⟨by decide, by decide, by decide⟩

/-- Claim C6 (amended): through `contributeToGoal` the stored status
is `completed` exactly when the new amount reaches the target (so an
active goal transitions precisely at the first contribution that
reaches it, and - for non-negative contributions - a goal at or
beyond its target never reverts to `active`), but this path never
touches `completedAt`; only the schema's pre-save hook, which runs on
direct document saves, sets the status and stamps `completedAt`. -/
theorem c6_completion_transition :
    (∀ (g : GoalRec) (a : Int),
      ((contributeToGoal g a).status = "completed" ↔
        g.targetAmount ≤ g.currentAmount + a)) ∧
    (∀ (g : GoalRec) (a : Int), 0 ≤ a → g.targetAmount ≤ g.currentAmount →
      (contributeToGoal g a).status = "completed") ∧
    (∀ (g : GoalRec) (a : Int),
      (contributeToGoal g a).completedAt = g.completedAt) ∧
    (∀ (g : GoalRec) (now : Int), g.status = "active" →
      g.targetAmount ≤ g.currentAmount →
      (goalPreSaveHook now g).status = "completed" ∧
      (goalPreSaveHook now g).completedAt = some now) := by
  refine ⟨?_, ?_, ?_, ?_⟩
  · intro g a
    by_cases h : g.targetAmount ≤ g.currentAmount + a
    · simp [contributeToGoal, h]
    · simp [contributeToGoal, h]
  · intro g a ha hge
    have h : g.targetAmount ≤ g.currentAmount + a := by omega
    simp [contributeToGoal, h]
  · intro g a; rfl
  · intro g now hact hge
    constructor <;> simp [goalPreSaveHook, hact, hge]

/-- Witness for C6: the completion step at the concrete goals
450-of-500 and 500-of-500. -/
theorem c6_witness :
    ((contributeToGoal goal450 100).status = "completed" ↔
      goal450.targetAmount ≤ goal450.currentAmount + 100) ∧
    (contributeToGoal goal500 10).status = "completed" ∧
    (goalPreSaveHook 7 goal500).status = "completed" ∧
    (goalPreSaveHook 7 goal500).completedAt = some 7 :=
  ⟨c6_completion_transition.1 goal450 100,
   c6_completion_transition.2.1 goal500 10 (by decide) (by decide),
   c6_completion_transition.2.2.2 goal500 7 (by decide) (by decide)⟩

/-- Claim C10: a crypto deposit or withdrawal request whose amount is
missing, zero or negative, or whose private key is missing, is
rejected with the 400 `Invalid input parameters` reply; no blockchain
call is made and the Transaction store is untouched. -/
theorem c10_invalid_input_rejected (store : List TxnDoc)
    (chain : ChainState) (r : Savingscontroller.CryptoReq)
    (h : r.amount = none ∨ (∃ a, r.amount = some a ∧ a ≤ 0) ∨
         r.privateKey = none) :
    Savingscontroller.depositCrypto store chain r =
      ⟨store, chain, [], Savingscontroller.invalidParams⟩ ∧
    Savingscontroller.withdraw store chain r =
      ⟨store, chain, [], Savingscontroller.invalidParams⟩ := by
  have hcond : r.amount.getD 0 ≤ 0 ∨ r.privateKey = none ∨
      r.privateKey = some "" := by
    rcases h with h | ⟨a, ha, hle⟩ | h
    · left; simp [h]
    · left; simp [ha, hle]
    · right; left; exact h
  constructor
  · simp [Savingscontroller.depositCrypto, if_pos hcond]
  · simp [Savingscontroller.withdraw, if_pos hcond]

/-- Witness for C10 at a concrete request with a zero amount. -/
theorem c10_witness :
    Savingscontroller.depositCrypto [] chain0 ⟨some 0, some "k1"⟩ =
      ⟨[], chain0, [], Savingscontroller.invalidParams⟩ ∧
    Savingscontroller.withdraw [] chain0 ⟨some 0, some "k1"⟩ =
      ⟨[], chain0, [], Savingscontroller.invalidParams⟩ :=
  c10_invalid_input_rejected [] chain0 ⟨some 0, some "k1"⟩
    (Or.inr (Or.inl ⟨0, rfl, by decide⟩))

/-- Claim C4 (counterexample): with a balance of 50, a withdrawal of
100 is rejected by the contract and the handler replies 500, but no
Transaction at all - in particular no failed one - is recorded, and
the balance is left at 50. -/
theorem c4_counterexample :
    (SavingsController.withdraw wdState0 cbUser wdReq).2.status = 500 ∧
    ((SavingsController.withdraw wdState0 cbUser wdReq).1).transactions = [] ∧
    ((SavingsController.withdraw wdState0 cbUser wdReq).1).chain.userBalances
      "k1" = 50 := by
  refine ⟨by rfl, by rfl, by rfl⟩

/-- Claim C4 (amended): a withdrawal whose amount exceeds the user's
on-chain balance is rejected by the contract's balance guard, so the
balance is neither driven below zero nor clamped - but the handler
merely replies 500 and records nothing: no failed Transaction is
created and no stored state changes. -/
theorem c4_overdraw_rejected (st : SavingsController.CState)
    (u : SavingsController.UserRec) (r : SavingsController.WithdrawReq)
    (h : st.chain.userBalances r.privateKey < r.amount) :
    SavingsController.withdraw st u r =
      (st, { status := 500, success := some false,
             error := some "Failed to withdraw crypto" }) := by
  unfold SavingsController.withdraw contractWithdraw
  rcases le_or_lt r.amount 0 with hle | hpos
  · rw [if_pos hle]
  · rw [if_neg (not_le.mpr hpos), if_pos h]

/-- Witness for C4 at the concrete 50-balance state and the
100-unit withdrawal request. -/
theorem c4_witness :
    SavingsController.withdraw wdState0 cbUser wdReq =
      (wdState0, { status := 500, success := some false,
                   error := some "Failed to withdraw crypto" }) :=
  c4_overdraw_rejected wdState0 cbUser wdReq (by decide)

theorem transactionCreate_ok (store : List TxnDoc) (d : TxnDoc)
    (hv : validTransaction d = true) (hq : uniqueIndexOk store d = true) :
    transactionCreate store d = .ok (store ++ [d]) := by
  simp [transactionCreate, hv, hq]

/-- Claim C2 (counterexample): the record-correlated webhook handler
re-applies the blockchain deposit on redelivery.  Starting from one
pending 100-unit deposit and a zero balance, the first delivery of
the success callback leaves the balance at 100 and the second
delivery drives it to 200 - the second delivery is not a no-op with
respect to the user's balance. -/
theorem c2_counterexample :
    ((SavingsController.mpesaCallback cbState0 cbSuccess).1).chain.userBalances
      "k1" = 100 ∧
    ((SavingsController.mpesaCallback
        ((SavingsController.mpesaCallback cbState0 cbSuccess).1)
        cbSuccess).1).chain.userBalances "k1" = 200 ∧
    ((SavingsController.mpesaCallback
        ((SavingsController.mpesaCallback cbState0 cbSuccess).1)
        cbSuccess).1).chain.userBalances "k1" ≠
      ((SavingsController.mpesaCallback cbState0 cbSuccess).1).chain.userBalances
        "k1" := by
  refine ⟨by rfl, by rfl, by decide⟩

/-- Claim C2 (amended): for the Redis-correlated handler
(savingscontroller.js) a redelivered callback is a complete no-op -
the second call returns the first call's state unchanged with the
fixed acknowledgement.  The record-correlated handler
(savingsController.js) never creates a second Transaction document
(it only rewrites the matched one), but every successful delivery,
including a redelivery, re-runs the blockchain deposit, adding the
callback amount to the user's balance again. -/
theorem c2_webhook_redelivery :
    (∀ (st : Savingscontroller.MState) (cb : Savingscontroller.StkCallback),
      Savingscontroller.mpesaCallback
          ((Savingscontroller.mpesaCallback st cb).1) cb =
        ((Savingscontroller.mpesaCallback st cb).1, mpesaAck)) ∧
    (∀ (st : SavingsController.CState) (cb : SavingsController.SimpleCallback),
      ((SavingsController.mpesaCallback st cb).1).transactions.length =
        st.transactions.length) ∧
    (∀ (st : SavingsController.CState) (cb : SavingsController.SimpleCallback)
        (t : TxnDoc) (u : SavingsController.UserRec),
      SavingsController.findPending st.transactions cb.requestId = some t →
      SavingsController.findUser st.users t.userId = some u →
      cb.status = "success" → 0 < cb.amount →
      ((SavingsController.mpesaCallback st cb).1).chain.userBalances
          u.privateKey =
        st.chain.userBalances u.privateKey + cb.amount) := by
  refine ⟨?_, ?_, ?_⟩
  · intro st cb
    cases hx : Savingscontroller.mpesaCallback st cb with
    | mk st1 r1 =>
      dsimp only
      unfold Savingscontroller.mpesaCallback at hx
      dsimp only at hx
      split at hx <;> try split at hx <;> try split at hx
      all_goals (injection hx with h1 h2; subst h1)
      all_goals simp_all [Savingscontroller.mpesaCallback, redisGet_redisDel]
  · intro st cb
    unfold SavingsController.mpesaCallback
    dsimp only
    split <;> try split <;> try split <;> try split
    all_goals simp [saveStatusFirst_length]
  · intro st cb t u hf hu hs ha
    unfold SavingsController.mpesaCallback
    rw [hf]
    dsimp only
    rw [if_pos hs]
    rw [hu]
    dsimp only
    unfold contractDeposit
    rw [if_neg (not_le.mpr ha)]
    dsimp only
    simp

/-- Witness for C2 at the concrete pending deposit: one successful
delivery adds the callback amount to the balance. -/
theorem c2_witness :
    ((SavingsController.mpesaCallback cbState0 cbSuccess).1).chain.userBalances
        cbUser.privateKey =
      cbState0.chain.userBalances cbUser.privateKey + cbSuccess.amount :=
  c2_webhook_redelivery.2.2 cbState0 cbSuccess pendingTxn cbUser
    rfl rfl rfl (by decide)

/-- Claim C3 (counterexample): on a successful callback with settled
amount 100 the Redis-correlated handler creates the completed
Transaction, but the user's balance does not increase - no balance
delta is applied anywhere by the handler. -/
theorem c3_counterexample :
    ((Savingscontroller.mpesaCallback stkState0 stkSuccess).1).transactions.length
      = 1 ∧
    ¬ (((Savingscontroller.mpesaCallback stkState0 stkSuccess).1).chain.userBalances
          "0xw" =
        stkState0.chain.userBalances "0xw" + 100) := by
  refine ⟨by rfl, by decide⟩

/-- Claim C3 (amended): on a successful callback matching a pending
entry, the Redis-correlated handler extracts the settled amount from
the callback metadata (preferring it over the requested amount),
creates a completed `mpesa_deposit` Transaction with that amount, and
deletes the pending Redis entry rather than marking it completed; it
applies no balance increase.  The record-correlated handler marks the
pending Transaction completed and deposits the callback amount on
chain, but creates no new Transaction document. -/
theorem c3_success_callback :
    (∀ (st : Savingscontroller.MState) (cb : Savingscontroller.StkCallback)
        (entry : Savingscontroller.RedisEntry),
      redisGet st.redis ("mpesa:" ++ cb.checkoutRequestID) = some entry →
      cb.resultCode = 0 →
      (∀ t ∈ st.transactions,
        t.mpesaReference ≠ some cb.checkoutRequestID) →
      ((Savingscontroller.mpesaCallback st cb).1).transactions =
        st.transactions ++
          [{ userId := some entry.userId,
             walletAddress := some entry.walletAddress,
             type := some "mpesa_deposit",
             amount := some
               (Savingscontroller.extractMetadata entry.amount "" cb.metadata).1,
             status := "completed",
             mpesaReference := some cb.checkoutRequestID,
             phoneNumber := some
               (Savingscontroller.extractMetadata entry.amount "" cb.metadata).2,
             timestamp := st.now }] ∧
      ((Savingscontroller.mpesaCallback st cb).1).chain = st.chain ∧
      ((Savingscontroller.mpesaCallback st cb).1).redis =
        redisDel st.redis ("mpesa:" ++ cb.checkoutRequestID) ∧
      (Savingscontroller.mpesaCallback st cb).2 = mpesaAck) ∧
    (∀ (st : SavingsController.CState) (cb : SavingsController.SimpleCallback)
        (t : TxnDoc) (u : SavingsController.UserRec),
      SavingsController.findPending st.transactions cb.requestId = some t →
      SavingsController.findUser st.users t.userId = some u →
      cb.status = "success" → 0 < cb.amount →
      ((SavingsController.mpesaCallback st cb).1).transactions =
        SavingsController.saveStatusFirst st.transactions cb.requestId
          "completed" ∧
      ((SavingsController.mpesaCallback st cb).1).chain.userBalances
          u.privateKey =
        st.chain.userBalances u.privateKey + cb.amount ∧
      (SavingsController.mpesaCallback st cb).2 =
        { status := 200, success := some true }) := by
  constructor
  · intro st cb entry hr h0 hfresh
    unfold Savingscontroller.mpesaCallback
    dsimp only
    rw [hr]
    dsimp only
    rw [if_pos h0]
    rw [transactionCreate_ok]
    · dsimp only
      exact ⟨rfl, rfl, rfl, rfl⟩
    · rfl
    · simp only [uniqueIndexOk, List.all_eq_true, decide_eq_true_eq,
        Bool.and_eq_true, true_and]
      exact fun t ht => hfresh t ht
  · intro st cb t u hf hu hs ha
    unfold SavingsController.mpesaCallback
    rw [hf]
    dsimp only
    rw [if_pos hs]
    rw [hu]
    dsimp only
    unfold contractDeposit
    rw [if_neg (not_le.mpr ha)]
    dsimp only
    refine ⟨rfl, by simp, rfl⟩

/-- Witness for C3 at the concrete STK state: the handler leaves the
chain untouched and acknowledges. -/
theorem c3_witness :
    ((Savingscontroller.mpesaCallback stkState0 stkSuccess).1).chain =
      stkState0.chain ∧
    (Savingscontroller.mpesaCallback stkState0 stkSuccess).2 = mpesaAck :=
  ⟨(c3_success_callback.1 stkState0 stkSuccess stkEntry rfl rfl
      (by simp [stkState0])).2.1,
   (c3_success_callback.1 stkState0 stkSuccess stkEntry rfl rfl
      (by simp [stkState0])).2.2.2⟩

/-- Claim C7 (counterexample): the record-correlated webhook handler
replies 404 - an error status, not the fixed success acknowledgement
- when no stored transaction matches the callback's correlation
id. -/
theorem c7_counterexample :
    (SavingsController.mpesaCallback emptyCState cbSuccess).2.status = 404 ∧
    (SavingsController.mpesaCallback emptyCState cbSuccess).2 ≠ mpesaAck := by
  refine ⟨by rfl, by decide⟩

/-- Claim C7 (amended): the Redis-correlated handler always replies
with the fixed acknowledgement payload, for every state and callback,
including unmatched and failing ones; the record-correlated handler
instead replies 404 when no transaction matches the correlation id
and 500 when processing throws (for example when the recorded user
does not exist). -/
theorem c7_reply_policy :
    (∀ (st : Savingscontroller.MState) (cb : Savingscontroller.StkCallback),
      (Savingscontroller.mpesaCallback st cb).2 = mpesaAck) ∧
    (∀ (st : SavingsController.CState) (cb : SavingsController.SimpleCallback),
      SavingsController.findPending st.transactions cb.requestId = none →
      SavingsController.mpesaCallback st cb =
        (st, { status := 404, success := some false,
               error := some "Transaction not found" })) ∧
    (∀ (st : SavingsController.CState) (cb : SavingsController.SimpleCallback)
        (t : TxnDoc),
      SavingsController.findPending st.transactions cb.requestId = some t →
      cb.status = "success" →
      SavingsController.findUser st.users t.userId = none →
      (SavingsController.mpesaCallback st cb).2 =
        { status := 500, success := some false,
          error := some "Failed to process M-Pesa callback" }) := by
  refine ⟨?_, ?_, ?_⟩
  · intro st cb
    unfold Savingscontroller.mpesaCallback
    dsimp only
    split
    · rfl
    · split
      · split
        · rfl
        · rfl
      · split
        · rfl
        · rfl
  · intro st cb h
    unfold SavingsController.mpesaCallback
    rw [h]
  · intro st cb t hf hs hu
    unfold SavingsController.mpesaCallback
    rw [hf]
    dsimp only
    rw [if_pos hs]
    rw [hu]

/-- Witness for C7: the 404 reply at the concrete empty store. -/
theorem c7_witness :
    SavingsController.mpesaCallback emptyCState cbSuccess =
      (emptyCState, { status := 404, success := some false,
                      error := some "Transaction not found" }) :=
  c7_reply_policy.2.1 emptyCState cbSuccess rfl

/-- Claim C8: for positive `page` and `limit`, the transaction
history endpoint returns at most `limit` documents, sorted by
descending timestamp, equal to the `(page-1)*limit`-skip /
`limit`-take window of the sorted matching documents; `total` counts
all matching documents, `pages` is the ceiling of `total / limit`
(characterised as the least `n` with `total ≤ n * limit`), and the
stored transactions are returned unchanged. -/
theorem c8_transaction_history (store : List TxnDoc) (address : String)
    (page limit : Nat) (hp : 1 ≤ page) (hl : 1 ≤ limit) :
    ((Savingscontroller.getTransactions store address page limit).1).transactions.length
      ≤ limit ∧
    List.Sorted Savingscontroller.tsGE
      ((Savingscontroller.getTransactions store address page limit).1).transactions ∧
    ((Savingscontroller.getTransactions store address page limit).1).transactions =
      (((store.filter (Savingscontroller.matchesAddress address.toLower)).insertionSort
          Savingscontroller.tsGE).drop ((page - 1) * limit)).take limit ∧
    ((Savingscontroller.getTransactions store address page limit).1).total =
      (store.filter (Savingscontroller.matchesAddress address.toLower)).length ∧
    ((Savingscontroller.getTransactions store address page limit).1).total ≤
      ((Savingscontroller.getTransactions store address page limit).1).pages *
        limit ∧
    (∀ n : Nat,
      ((Savingscontroller.getTransactions store address page limit).1).total ≤
        n * limit →
      ((Savingscontroller.getTransactions store address page limit).1).pages ≤ n) ∧
    (Savingscontroller.getTransactions store address page limit).2 = store := by
  refine ⟨?_, ?_, rfl, rfl, ?_, ?_, rfl⟩
  · exact List.length_take_le limit _
  · exact (List.sorted_insertionSort Savingscontroller.tsGE _).sublist
      ((List.take_sublist _ _).trans (List.drop_sublist _ _))
  · show (store.filter (Savingscontroller.matchesAddress address.toLower)).length ≤
      (((store.filter (Savingscontroller.matchesAddress address.toLower)).length +
          limit - 1) / limit) * limit
    generalize (store.filter (Savingscontroller.matchesAddress address.toLower)).length = T
    have h1 := Nat.div_add_mod (T + limit - 1) limit
    have h2 : (T + limit - 1) % limit < limit := Nat.mod_lt _ (by omega)
    rw [Nat.mul_comm]
    generalize hq : (T + limit - 1) / limit = q at h1 ⊢
    generalize hm : (T + limit - 1) % limit = m at h1 h2
    generalize hP : limit * q = P at h1 ⊢
    omega
  · intro n
    show (store.filter (Savingscontroller.matchesAddress address.toLower)).length ≤
        n * limit →
      ((store.filter (Savingscontroller.matchesAddress address.toLower)).length +
          limit - 1) / limit ≤ n
    generalize (store.filter (Savingscontroller.matchesAddress address.toLower)).length = T
    intro hn
    by_contra hq
    push_neg at hq
    have h3 : (n + 1) * limit ≤ T + limit - 1 :=
      (Nat.le_div_iff_mul_le (by omega)).1 hq
    have h4 : (n + 1) * limit = n * limit + limit := by ring
    rw [h4] at h3
    generalize hP : n * limit = P at hn h3
    omega

/-- Witness for C8 at a concrete store and page 1 of size 10. -/
theorem c8_witness :
    ((Savingscontroller.getTransactions [pendingTxn] "0xA" 1 10).1).transactions.length
      ≤ 10 ∧
    (Savingscontroller.getTransactions [pendingTxn] "0xA" 1 10).2 =
      [pendingTxn] :=
  ⟨(c8_transaction_history [pendingTxn] "0xA" 1 10 (by decide) (by decide)).1,
   (c8_transaction_history [pendingTxn] "0xA" 1 10 (by decide)
      (by decide)).2.2.2.2.2.2⟩

/-- Claim C9: `getTotalSavings` equals the sum over all stored
transactions of the signed per-transaction contributions - the amount
for the user's completed `deposit` documents, the negated amount for
the user's completed `withdrawal` documents, nothing for every other
type or status - and the result can be negative. -/
theorem c9_total_savings :
    (∀ (store : List TxnDoc) (userId : String),
      getTotalSavings store userId =
        (store.map (txnContribution userId)).sum) ∧
    (∃ store : List TxnDoc, getTotalSavings store "u1" < 0) := by
  constructor
  · have key : ∀ (t : TxnDoc) (rest : List TxnDoc) (userId : String),
        getTotalSavings (t :: rest) userId =
          txnContribution userId t + getTotalSavings rest userId := by
      intro t rest uid
      unfold getTotalSavings txnContribution
      dsimp only
      by_cases h1 : t.userId = some uid
      · by_cases h2 : t.type = some "deposit"
        · by_cases h3 : t.status = "completed"
          · simp [List.filter_cons, h1, h2, h3]
            ring
          · simp [List.filter_cons, h1, h2, h3]
        · by_cases h2w : t.type = some "withdrawal"
          · by_cases h3 : t.status = "completed"
            · simp [List.filter_cons, h1, h2, h2w, h3]
              ring
            · simp [List.filter_cons, h1, h2, h2w, h3]
          · simp [List.filter_cons, h1, h2, h2w]
      · simp [List.filter_cons, h1]
    intro store uid
    induction store with
    | nil => rfl
    | cons t rest ih => rw [key, ih, List.map_cons, List.sum_cons]
  · refine ⟨[{ userId := some "u1",
               type := some "withdrawal",
               status := "completed",
               amount := some 5 }], by decide⟩
